import Mathlib

/-!
Verification development for the echoo backend (FastAPI + SQLAlchemy).

The definitions below are a shallow embedding of the routers and helpers in
`app/routers/events.py`, `app/routers/fotoowl_request_mapping.py` and
`app/routers/profile.py`, together with the data model of `app/models.py`.

Modelling conventions:
* Python `None` / missing JSON keys are `Option.none`; Python truthiness of
  strings and integers is made explicit (`strTruthy`, `intTruthy`).
* The relational store is a list of rows per table; a SQLAlchemy query
  `.filter(...).first()` is `List.find?`, `.all()` is `List.filter`.
* HTTP exceptions are `HTTPError` values carrying the status code and the
  detail string built exactly as in the source.
* Outbound network calls are nondeterministic inputs: each possible outcome
  of `requests.get` / `requests.post` (success payload, transport error,
  non-2xx) is a constructor of an outcome type passed to the function.
* `db.commit` / `db.rollback` are explicit transitions on a transaction
  state (committed rows + pending rows + a commit counter).
* Timestamps are abstracted as `Option Int`; serial primary keys assigned by
  the database are abstracted as `Option Int` left `none` on fresh rows.
-/

namespace Echoo

/-- Python truthiness of an optional string: `None` and `""` are falsy. -/
def strTruthy : Option String → Bool
  | none => false
  | some s => s ≠ ""

/-- Python truthiness of an optional integer: `None` and `0` are falsy. -/
def intTruthy : Option Int → Bool
  | none => false
  | some n => n ≠ 0

/-- A FastAPI `HTTPException`: status code plus detail message. -/
structure HTTPError where
  status : Nat
  detail : String
deriving DecidableEq

/-! ## Data model (`app/models.py`) -/

/-- `models.User` (columns not read by the verified endpoints are omitted). -/
structure User where
  id : Int
  username : String
  email : Option String
  selfie_url : Option String
  instagram_url : Option String
  twitter_url : Option String
  linkedin_url : Option String
  description : Option String
deriving DecidableEq

/-- `models.Image`.  The external-provider image identifier is declared as
`fotoowl_image_id` (models.py line 32), and `images.py` reads and writes it
under that name.  `events.py` line 344 instead accesses `Image.fotoowl_id`,
an attribute this class does not have — that access raises an
`AttributeError` (modelled in `get_event_matched_image_list` below). -/
structure Image where
  id : Int
  name : String
  user_id : Option Int
  fotoowl_image_id : Option Int
  fotoowl_url : Option String
  filecoin_url : Option String
  filecoin_cid : Option String
  size : Option Int
  height : Option Int
  width : Option Int
  description : Option String
  image_encoding : Option String
  event_id : Option Int
  created_at : Option Int
  updated_at : Option Int
deriving DecidableEq

/-- `models.EventRequestMapping` (a registration row).  `id` is the
database-assigned serial key, `none` on a freshly built row. -/
structure EventRequestMapping where
  id : Option Int
  fotoowl_event_id : Int
  request_id : Int
  request_key : String
  user_id : Int
  redirect_url : Option String
deriving DecidableEq

/-- `models.Event` (descriptive columns omitted). -/
structure Event where
  id : Int
  name : String
  fotoowl_event_id : Option Int
  fotoowl_event_key : Option String
deriving DecidableEq

/-- The relational store visible to the event endpoints. -/
structure Db where
  registrations : List EventRequestMapping
  events : List Event
  images : List Image
deriving DecidableEq

/-! ## Registration workflow (`events.py`, `register_for_event`) -/

/-- `schemas.EventRegistrationRequest`: the request body carries the
FotoOwl event id and a `key` field. -/
structure EventRegistrationRequest where
  event_id : Int
  key : String
deriving DecidableEq

/-- Payload of the FotoOwl "create request" response: `data.get(...)` of
`request_id`, `request_key`, `redirect_url`. -/
structure FotoowlData where
  request_id : Option Int
  request_key : Option String
  redirect_url : Option String
deriving DecidableEq

/-- The FotoOwl "create request" JSON envelope.  `ok` is the truthiness of
`response.get('ok')` (absent and explicit-false coincide); `data` is
`response.get('data', {})`, with `none` standing for the `{}` default. -/
structure FotoowlRegResponse where
  ok : Bool
  data : Option FotoowlData
deriving DecidableEq

/-- Outcome of `requests.get(selfie_url)` inside `download_image_from_url`:
either the image bytes arrive, or some exception (transport error, non-2xx
via `raise_for_status`) is raised with message `msg`. -/
inductive DownloadResult where
  | ok
  | error (msg : String)
deriving DecidableEq

/-- Outcome of the `requests.post` inside `call_fotoowl_api`: either a 2xx
JSON payload, or some exception (transport error, non-2xx, JSON decode)
with message `msg`. -/
inductive ApiCallResult where
  | ok (resp : FotoowlRegResponse)
  | error (msg : String)
deriving DecidableEq

/-- State of the transient local selfie file created by
`tempfile.NamedTemporaryFile(delete=False)`. -/
structure FileState where
  tempFile : Bool
deriving DecidableEq

/-- `download_image_from_url` (events.py lines 15-33): on success the bytes
are written to a fresh transient file (state gains the file); on any
exception an `HTTPException(400, "Failed to download image: ...")` is
raised and no file was created (the temp file is only opened after
`requests.get` and `raise_for_status` succeed). -/
def download_image_from_url (download : DownloadResult) (fs : FileState) :
    Except HTTPError Unit × FileState :=
  match download with
  | .ok => (Except.ok (), { tempFile := true })
  | .error m => (Except.error ⟨400, "Failed to download image: " ++ m⟩, fs)

/-- `call_fotoowl_api` (events.py lines 35-70): returns the parsed JSON on
success, raises `HTTPException(400, "Failed to call FotoOwl API: ...")` on
any exception, and in a `finally` block unlinks the transient file if it
exists — so the file is gone on every exit path.  (The source wraps the
unlink in `try/except: pass`; the embedded file system's unlink always
succeeds.) -/
def call_fotoowl_api (api : ApiCallResult) (_fs : FileState) :
    Except HTTPError FotoowlRegResponse × FileState :=
  (match api with
   | .ok resp => Except.ok resp
   | .error m => Except.error ⟨400, "Failed to call FotoOwl API: " ++ m⟩,
   { tempFile := false })

deriving instance DecidableEq for Except

/-- Result of a `register_for_event` call: the HTTP response, the store
afterwards, the file-system state afterwards, and — when the FotoOwl
"create request" endpoint was actually invoked — the `event_id` and `key`
form fields that were sent to it. -/
structure RegisterResult where
  response : Except HTTPError EventRequestMapping
  db : Db
  fs : FileState
  provider_call : Option (Int × String)
deriving DecidableEq

/-- `register_for_event` (events.py lines 72-165).  Checks, in order:
existing registration → 409; missing selfie → 400; missing event or event
key → 404.  Then downloads the selfie, posts it to FotoOwl with the key
from the Events table, validates the envelope (`ok` truthy, `request_id`
and `request_key` truthy) and persists the new `EventRequestMapping`.
The surrounding `except HTTPException: raise` re-raises every modelled
error unchanged, so the handler wrapper is the identity here. -/
def register_for_event (registration_data : EventRegistrationRequest)
    (current_user : User) (db : Db) (download : DownloadResult)
    (api : ApiCallResult) (fs : FileState) : RegisterResult :=
  match db.registrations.find? (fun r =>
      r.user_id == current_user.id &&
      r.fotoowl_event_id == registration_data.event_id) with
  | some _ =>
      ⟨Except.error ⟨409, "User already registered for event " ++
        toString registration_data.event_id⟩, db, fs, none⟩
  | none =>
    if !strTruthy current_user.selfie_url then
      ⟨Except.error ⟨400,
        "User must have a selfie uploaded before registering for events"⟩,
        db, fs, none⟩
    else
      match db.events.find? (fun e =>
          e.fotoowl_event_id == some registration_data.event_id) with
      | none =>
          ⟨Except.error ⟨404, "Event not found or missing event key for event_id "
            ++ toString registration_data.event_id⟩, db, fs, none⟩
      | some event =>
        if !strTruthy event.fotoowl_event_key then
          ⟨Except.error ⟨404, "Event not found or missing event key for event_id "
            ++ toString registration_data.event_id⟩, db, fs, none⟩
        else
          match download_image_from_url download fs with
          | (Except.error e, fs1) => ⟨Except.error e, db, fs1, none⟩
          | (Except.ok _, fs1) =>
            let sent : Int × String :=
              (registration_data.event_id, (event.fotoowl_event_key).getD "")
            match call_fotoowl_api api fs1 with
            | (Except.error e, fs2) => ⟨Except.error e, db, fs2, some sent⟩
            | (Except.ok fotoowl_response, fs2) =>
              if !fotoowl_response.ok then
                ⟨Except.error ⟨400, "FotoOwl API returned error response"⟩,
                  db, fs2, some sent⟩
              else
                let fotoowl_data := fotoowl_response.data.getD ⟨none, none, none⟩
                if !intTruthy fotoowl_data.request_id ||
                   !strTruthy fotoowl_data.request_key then
                  ⟨Except.error ⟨400,
                    "Invalid response from FotoOwl API - missing request_id or request_key"⟩,
                    db, fs2, some sent⟩
                else
                  let event_mapping : EventRequestMapping :=
                    ⟨none, registration_data.event_id,
                      fotoowl_data.request_id.getD 0,
                      fotoowl_data.request_key.getD "",
                      current_user.id,
                      fotoowl_data.redirect_url⟩
                  ⟨Except.ok event_mapping,
                    { db with registrations := db.registrations ++ [event_mapping] },
                    fs2, some sent⟩

/-! ## Match reconciliation (`events.py`, `get_event_matched_image_list`) -/

/-- One entry of the FotoOwl `image_list`.  `id` is accessed as `img['id']`
(required); the other fields are read with `.get`, so they are optional.
An absent key and an explicit JSON `null` are both modelled as `none`. -/
structure FotoowlImage where
  id : Int
  name : Option String
  img_url : Option String
  size : Option Int
  height : Option Int
  width : Option Int
deriving DecidableEq

/-- The FotoOwl "image list" JSON envelope: `ok` is the truthiness of
`.get('ok', False)`, `image_list` is `.get('data', {}).get('image_list', [])`
with the defaults already applied. -/
structure FotoowlListResponse where
  ok : Bool
  image_list : List FotoowlImage
deriving DecidableEq

/-- Outcome of the `requests.get` against the FotoOwl image-list endpoint:
`requestError` is any `requests.exceptions.RequestException` (transport
failure, or non-2xx via `raise_for_status`); `response` is a parsed 2xx
JSON body. -/
inductive ListApiResult where
  | requestError (msg : String)
  | response (r : FotoowlListResponse)
deriving DecidableEq

/-- `schemas.ImageListResponse`: the response row of the matched-image
endpoint, with the derived `image_url` field. -/
structure ImageListResponse where
  id : Option Int
  name : String
  user_id : Option Int
  fotoowl_id : Option Int
  fotoowl_url : Option String
  filecoin_url : Option String
  filecoin_cid : Option String
  size : Option Int
  height : Option Int
  width : Option Int
  description : Option String
  image_encoding : Option String
  event_id : Option Int
  image_url : Option String
  created_at : Option Int
  updated_at : Option Int
deriving DecidableEq

/-- An exception raised inside the `try` block of the image-list endpoint:
a `requests.exceptions.RequestException`, an `HTTPException` (which, in
this endpoint, has no dedicated re-raise arm), or the `AttributeError`
from the local-image query construction. -/
inductive TryExc where
  | requestExc (msg : String)
  | httpExc (e : HTTPError)
  | attrExc (msg : String)
deriving DecidableEq

/-- Message of the `AttributeError` raised by the `Image.fotoowl_id`
access at events.py line 344: `models.Image` declares the column
`fotoowl_image_id`, so the class has no attribute `fotoowl_id`.  As with
`errStr`, the exact CPython rendering of the exception text is
abstracted. -/
def imageAttributeErrorMsg : String :=
  "type object Image has no attribute fotoowl_id"

/-- Stand-in for Python `str(e)` on a caught `HTTPException` (the precise
rendering of the exception is irrelevant to every claim; only the 500
status of the wrapper matters). -/
def errStr (e : HTTPError) : String :=
  toString e.status ++ ": " ++ e.detail

/-- `get_event_matched_image_list` (events.py lines 259-417).
Outside the `try`: missing registration → 404, missing/empty event key →
400.  Inside the `try`: a `RequestException` propagates to the
`except requests.exceptions.RequestException` arm (503); every other
exception raised inside the block is caught by the *generic*
`except Exception` arm and re-wrapped as a 500, because this endpoint has
no `except HTTPException: raise` arm.  Two such exceptions occur: the
`HTTPException(400)` of the non-"ok" envelope case, and — on every
non-empty `image_list` — the `AttributeError` from building
`Image.fotoowl_id.in_(...)` at line 344 (`models.Image` has no
`fotoowl_id` attribute; its column is `fotoowl_image_id`).  The
local-image merge of lines 347-404 is therefore unreachable and is not
part of this definition.  The `page` and `page_size` arguments are passed
through to the provider verbatim and do not influence the local
computation. -/
def get_event_matched_image_list (event_id : Int) (_page : Int)
    (_page_size : Int) (current_user : User) (db : Db)
    (api : ListApiResult) : Except HTTPError (List ImageListResponse) :=
  match db.registrations.find? (fun r =>
      r.user_id == current_user.id && r.fotoowl_event_id == event_id) with
  | none =>
      Except.error ⟨404, "User is not registered for event " ++
        toString event_id ++ ". Please register first."⟩
  | some _registration =>
    let event := db.events.find? (fun e => e.fotoowl_event_id == some event_id)
    let event_key : Option String :=
      match event with
      | some e => e.fotoowl_event_key
      | none => none
    if !strTruthy event_key then
      Except.error ⟨400, "Event key not found for event " ++ toString event_id⟩
    else
      let tryResult : Except TryExc (List ImageListResponse) :=
        match api with
        | .requestError m => Except.error (.requestExc m)
        | .response fotoowl_data =>
          if !fotoowl_data.ok then
            Except.error (.httpExc ⟨400, "FotoOwl API returned error response"⟩)
          else
            let image_list := fotoowl_data.image_list
            if image_list.isEmpty then Except.ok []
            else
              -- line 340 builds `fotoowl_image_ids` (no observable effect),
              -- then line 344 accesses the nonexistent `Image.fotoowl_id`
              Except.error (.attrExc imageAttributeErrorMsg)
      match tryResult with
      | Except.ok v => Except.ok v
      | Except.error (.requestExc m) =>
          Except.error ⟨503, "Failed to connect to FotoOwl API: " ++ m⟩
      | Except.error (.httpExc e) =>
          Except.error ⟨500, "Unexpected error: " ++ errStr e⟩
      | Except.error (.attrExc m) =>
          Except.error ⟨500, "Unexpected error: " ++ m⟩

/-! ## Bulk mapping ingestion (`fotoowl_request_mapping.py`) -/

/-- `schemas.FotoOwlRequestMappingCreate`.  The pydantic class itself is not
in this snapshot of `schemas.py`; its fields are exactly the ones the
router reads (`fotoowl_request_id`, `fotoowl_event_id`, `fotoowl_image_id`,
`fotoowl_index_num`, the four box corners and the aspect ratio, the last
five nullable).  The numeric payload of the box fields is abstracted to
`Option Int` (the router only interpolates them into the INSERT, or
substitutes `NULL`).  `fotoowl_aria` stands for the source column
`fotoowl_aria_ratio`. -/
structure FotoOwlRequestMappingCreate where
  fotoowl_request_id : Int
  fotoowl_event_id : Int
  fotoowl_image_id : Int
  fotoowl_index_num : Int
  fotoowl_x1 : Option Int
  fotoowl_x2 : Option Int
  fotoowl_y1 : Option Int
  fotoowl_y2 : Option Int
  fotoowl_aria : Option Int
deriving DecidableEq

/-- A committed/pending row of the `fotoowl_request_mapping` table (the
columns the bulk INSERT writes, timestamps abstracted away). -/
structure MappingRow where
  fotoowl_request_id : Int
  fotoowl_event_id : Int
  fotoowl_image_id : Int
  fotoowl_index_num : Int
  fotoowl_x1 : Option Int
  fotoowl_x2 : Option Int
  fotoowl_y1 : Option Int
  fotoowl_y2 : Option Int
  fotoowl_aria : Option Int
deriving DecidableEq

/-- The row written by the bulk INSERT for one incoming mapping. -/
def toRow (m : FotoOwlRequestMappingCreate) : MappingRow :=
  ⟨m.fotoowl_request_id, m.fotoowl_event_id, m.fotoowl_image_id,
   m.fotoowl_index_num, m.fotoowl_x1, m.fotoowl_x2, m.fotoowl_y1,
   m.fotoowl_y2, m.fotoowl_aria⟩

/-- The composite duplicate-detection key:
`(fotoowl_event_id, fotoowl_index_num, fotoowl_request_id)`. -/
def triplet (m : FotoOwlRequestMappingCreate) : Int × Int × Int :=
  (m.fotoowl_event_id, m.fotoowl_index_num, m.fotoowl_request_id)

/-- The composite key of a table row. -/
def rowTriplet (r : MappingRow) : Int × Int × Int :=
  (r.fotoowl_event_id, r.fotoowl_index_num, r.fotoowl_request_id)

/-- Membership of a triplet in a list of triplets (Python `in` on the set
built from the SELECT result). -/
def tripletMem (t : Int × Int × Int) (l : List (Int × Int × Int)) : Bool :=
  l.any (fun u => decide (u = t))

/-- `schemas.FotoOwlRequestMappingBulkResponse` (fields as constructed by
the router; `skipped_pairs` holds the skipped triplets). -/
structure FotoOwlRequestMappingBulkResponse where
  total_received : Nat
  total_inserted : Nat
  total_skipped : Nat
  skipped_pairs : List (Int × Int × Int)
deriving DecidableEq

/-- Fuel-indexed worker for the chunk slicing (the fuel only serves to make
the recursion structural; with fuel ≥ the list length it never runs out). -/
def chunksOfFuel (n : Nat) : Nat → List MappingRow → List (List MappingRow)
  | _, [] => []
  | 0, _ :: _ => []
  | fuel + 1, x :: xs => (x :: xs).take n :: chunksOfFuel n fuel (xs.drop (n - 1))

/-- `new_mappings[i:i+n]` slices of the Python chunking loop
`for i in range(0, len(new_mappings), CHUNK_SIZE)`, for `n > 0`. -/
def chunksOf (n : Nat) (l : List MappingRow) : List (List MappingRow) :=
  chunksOfFuel n l.length l

/-- Per-chunk failure oracle: `chunkFail i = some msg` means the
`db.execute` of chunk `i` raises an exception with message `msg`. -/
def ChunkOracle := Nat → Option String

/-- Run the chunk loop from chunk index `i`: on the first failing chunk the
exception message is returned and the later chunks are not executed;
otherwise all rows executed so far are accumulated in the transaction's
pending set. -/
def runChunks (chunkFail : ChunkOracle) (i : Nat)
    (chunks : List (List MappingRow)) (pending : List MappingRow) :
    Option String × List MappingRow :=
  match chunks with
  | [] => (none, pending)
  | c :: cs =>
    match chunkFail i with
    | some msg => (some msg, pending)
    | none => runChunks chunkFail (i + 1) cs (pending ++ c)

/-- Result of a bulk-ingestion call: the HTTP response, the committed table
afterwards, and how many times `db.commit()` ran during the call. -/
structure BulkInsertResult where
  response : Except HTTPError FotoOwlRequestMappingBulkResponse
  committed : List MappingRow
  commits : Nat
deriving DecidableEq

/-- Step 1 of the bulk insert: the SELECT of the already-stored triplets
among the batch's triplets (as a list standing for the fetched set). -/
def existingTriplets (mappings : List FotoOwlRequestMappingCreate)
    (committed : List MappingRow) : List (Int × Int × Int) :=
  (committed.map rowTriplet).filter
    (fun t => tripletMem t (mappings.map triplet))

/-- Step 2, skipped side: batch entries whose triplet is already stored. -/
def skippedMappings (mappings : List FotoOwlRequestMappingCreate)
    (committed : List MappingRow) : List FotoOwlRequestMappingCreate :=
  mappings.filter (fun m => tripletMem (triplet m) (existingTriplets mappings committed))

/-- Step 2, kept side: batch entries whose triplet is not already stored
(in-batch repetition is not examined). -/
def newMappings (mappings : List FotoOwlRequestMappingCreate)
    (committed : List MappingRow) : List FotoOwlRequestMappingCreate :=
  mappings.filter (fun m => !tripletMem (triplet m) (existingTriplets mappings committed))

/-- `bulk_insert_fotoowl_request_mappings` (fotoowl_request_mapping.py
lines 21-125).  Step 1: one bulk SELECT of the already-stored triplets
among the batch's triplets.  Step 2: partition the batch — an incoming
mapping whose triplet is in the SELECT result is counted skipped and
recorded, the rest become `new_mappings` (the set of existing triplets is
*not* extended as the batch is scanned).  Step 3: write `new_mappings` in
chunks of 500; any chunk failure aborts the loop.  Then a single
`db.commit()` on success, or `db.rollback()` (dropping every pending row
of this call) and a 500 on failure. -/
def bulk_insert_fotoowl_request_mappings
    (mappings : List FotoOwlRequestMappingCreate)
    (committed : List MappingRow) (chunkFail : ChunkOracle) :
    BulkInsertResult :=
  let total_received := mappings.length
  let skipped := skippedMappings mappings committed
  let total_skipped := skipped.length
  let skipped_triplets := skipped.map triplet
  let chunks := chunksOf 500 ((newMappings mappings committed).map toRow)
  let total_inserted := (chunks.map List.length).sum
  match runChunks chunkFail 0 chunks [] with
  | (some msg, _pending) =>
      ⟨Except.error ⟨500, "Error during bulk insert: " ++ msg⟩, committed, 0⟩
  | (none, pending) =>
      ⟨Except.ok ⟨total_received, total_inserted, total_skipped, skipped_triplets⟩,
        committed ++ pending, 1⟩

/-! ## Profile update (`profile.py`) -/

/-- `schemas.UserProfileUpdate` under pydantic's `exclude_unset` semantics:
`none` = the field was not supplied, `some v` = the field was supplied with
value `v` (`v = none` is an explicit JSON `null`). -/
structure UserProfileUpdate where
  email : Option (Option String)
  instagram_url : Option (Option String)
  twitter_url : Option (Option String)
  linkedin_url : Option (Option String)
  description : Option (Option String)
deriving DecidableEq

/-- The characters admitted by the username check `^[a-zA-Z0-9._]+$`. -/
def instaValidChar (c : Char) : Bool :=
  ('a' ≤ c && c ≤ 'z') || ('A' ≤ c && c ≤ 'Z') || c.isDigit || c = '.' || c = '_'

/-- `re.search(r'instagram\.com/([^/?]+)', handle)`: the first position at
which `instagram.com/` occurs followed by at least one character other
than `/` and `?` yields the maximal such run as the captured username. -/
def instaSearch (pat : List Char) : List Char → Option (List Char)
  | [] => none
  | c :: rest =>
    let cap := ((c :: rest).drop pat.length).takeWhile
      (fun ch => !(ch = '/' || ch = '?'))
    if pat.isPrefixOf (c :: rest) && !cap.isEmpty then some cap
    else instaSearch pat rest

/-- Python `sub in s` substring test. -/
def containsSub (pat : List Char) : List Char → Bool
  | [] => decide (pat = [])
  | c :: rest => pat.isPrefixOf (c :: rest) || containsSub pat rest

/-- `normalize_instagram_url` (profile.py lines 15-60).  Falsy or
whitespace-only input is returned unchanged; otherwise the handle is
stripped and de-`@`-prefixed, a username is extracted (regex capture when
the handle mentions `instagram.com`, the handle itself otherwise), cleaned
of trailing slashes and of anything after a `/` or `?`, validated against
`^[a-zA-Z0-9._]+$`, and wrapped into a canonical URL; `none` on failure. -/
def normalize_instagram_url (instagram_input : String) : Option String :=
  if instagram_input = "" || instagram_input.trim = "" then some instagram_input
  else
    let handle := (instagram_input.trim.toList).dropWhile (fun c => c = '@')
    let username0 : Option (List Char) :=
      if containsSub "instagram.com".toList handle then
        instaSearch "instagram.com/".toList handle
      else
        some handle
    match username0 with
    | none => none
    | some u0 =>
      let u1 := ((u0.reverse.dropWhile (fun c => c = '/')).reverse)
      let u2 := u1.takeWhile (fun c => c ≠ '/')
      let username := u2.takeWhile (fun c => c ≠ '?')
      if username.all instaValidChar && !username.isEmpty then
        some ("https://www.instagram.com/" ++ String.mk username ++ "/")
      else
        none

/-- Outcome of `instagram_service.fetch_and_save_user_posts`: either a
result summary, or an exception with message `msg`. -/
inductive InstaFetchOutcome where
  | ok
  | failure (msg : String)
deriving DecidableEq

/-- The `setattr` loop over `profile_data.model_dump(exclude_unset=True)`:
every supplied field overwrites the user row, unsupplied fields are kept. -/
def applyUpdate (profile_data : UserProfileUpdate) (u : User) : User :=
  { u with
    email := profile_data.email.getD u.email
    instagram_url := profile_data.instagram_url.getD u.instagram_url
    twitter_url := profile_data.twitter_url.getD u.twitter_url
    linkedin_url := profile_data.linkedin_url.getD u.linkedin_url
    description := profile_data.description.getD u.description }

/-- Result of an `update_profile` call: the HTTP response, the committed
user row, how many commits ran, and whether the Instagram fetch was
attempted. -/
structure UpdateProfileResult where
  response : Except HTTPError User
  user : User
  commits : Nat
  insta_attempted : Bool
deriving DecidableEq

/-- `update_profile` (profile.py lines 62-111).  A supplied (non-null)
Instagram value is normalized first (an invalid one is replaced by `None`,
which — being an explicitly set field — then clears the stored URL); the
`instagram_url_updated` flag compares the supplied value with the stored
one; the patch is applied field-by-field and committed; afterwards, if the
flag is set and the committed URL is truthy, the Instagram fetch runs
inside `try/except` whose handler only logs — a fetch failure never
changes the response or the committed row. -/
def update_profile (profile_data : UserProfileUpdate) (current_user : User)
    (insta : InstaFetchOutcome) : UpdateProfileResult :=
  let pd : UserProfileUpdate :=
    match profile_data.instagram_url with
    | some (some s) => { profile_data with instagram_url := some (normalize_instagram_url s) }
    | _ => profile_data
  let instagram_url_updated : Bool :=
    match pd.instagram_url with
    | some (some s) => decide (some s ≠ current_user.instagram_url)
    | _ => false
  let u1 := applyUpdate pd current_user
  let attempted := instagram_url_updated && strTruthy u1.instagram_url
  if attempted then
    match insta with
    | .ok => ⟨Except.ok u1, u1, 1, true⟩
    | .failure _msg => ⟨Except.ok u1, u1, 1, true⟩
  else
    ⟨Except.ok u1, u1, 1, false⟩

/-! ## Shared concrete fixtures for witnesses and counterexamples -/

/-- A user with a selfie on file. -/
def userW : User := ⟨1, "alice", none, some "http://cdn/selfie.jpg", none, none, none, none⟩

/-- The same user without a selfie. -/
def userNoSelfieW : User := { userW with selfie_url := none }

/-- The event row for FotoOwl event 1413 with a stored event key. -/
def eventW : Event := ⟨5, "gala", some 1413, some "ekey"⟩

/-- An existing registration of `userW` for event 1413. -/
def regW : EventRequestMapping := ⟨some 9, 1413, 77, "k1", 1, none⟩

/-- Store with the event but no registration. -/
def dbNoRegW : Db := ⟨[], [eventW], []⟩

/-- Store with the event and the existing registration. -/
def dbRegW : Db := ⟨[regW], [eventW], []⟩

/-- The provider response of the spec's registration scenario. -/
def apiOkW : ApiCallResult := ApiCallResult.ok ⟨true, some ⟨some 77, some "k1", none⟩⟩

/-! ## Helper lemmas -/

/-- Two strings with different first characters differ. -/
theorem string_ne_of_head_ne {a b : String} (h : a.data.head? ≠ b.data.head?) :
    a ≠ b :=
  fun e => h (by rw [e])

/-- C3 helper: with an existing registration row for the caller and event,
the `find?` of the duplicate check succeeds. -/
theorem find_registration_isSome {u : User} {rd : EventRegistrationRequest}
    {db : Db}
    (h : ∃ r ∈ db.registrations, r.user_id = u.id ∧ r.fotoowl_event_id = rd.event_id) :
    (db.registrations.find? (fun r =>
      r.user_id == u.id && r.fotoowl_event_id == rd.event_id)).isSome := by
  rcases h with ⟨r, hr, h1, h2⟩
  exact List.find?_isSome.mpr ⟨r, hr, by simp [h1, h2]⟩

/-- C3: with an existing Registration row for `(user.id, event_id)`, a
further `register_for_event` call for the same pair fails with Conflict
(409) and persists no new Registration row; and the duplicate check is the
first precondition — the result is 409 whatever the state of the selfie
and event-key preconditions and of the provider. -/
theorem C3_register_twice_conflict (rd : EventRegistrationRequest)
    (u : User) (db : Db) (dl : DownloadResult) (api : ApiCallResult)
    (fs : FileState)
    (h : ∃ r ∈ db.registrations, r.user_id = u.id ∧ r.fotoowl_event_id = rd.event_id) :
    (register_for_event rd u db dl api fs).response =
      Except.error ⟨409, "User already registered for event " ++ toString rd.event_id⟩ ∧
    (register_for_event rd u db dl api fs).db = db := by
  have hs := find_registration_isSome h
  rcases hopt : db.registrations.find? (fun r =>
      r.user_id == u.id && r.fotoowl_event_id == rd.event_id) with _ | r
  · rw [hopt] at hs; simp at hs
  · constructor <;> simp [register_for_event, hopt]

/-- C3 witness: the duplicate-registration theorem applied at the concrete
fixture (user 1, event 1413, registration already stored), with the selfie
present, the provider healthy — and the 409 still wins. -/
theorem C3_register_twice_conflict_witness :
    (∃ r ∈ dbRegW.registrations, r.user_id = userW.id ∧
      r.fotoowl_event_id = (⟨1413, "anykey"⟩ : EventRegistrationRequest).event_id) ∧
    (register_for_event ⟨1413, "anykey"⟩ userW dbRegW .ok apiOkW ⟨false⟩).response =
      Except.error ⟨409, "User already registered for event " ++
        toString (⟨1413, "anykey"⟩ : EventRegistrationRequest).event_id⟩ ∧
    (register_for_event ⟨1413, "anykey"⟩ userW dbRegW .ok apiOkW ⟨false⟩).db = dbRegW :=
  ⟨by decide,
    C3_register_twice_conflict ⟨1413, "anykey"⟩ userW dbRegW .ok apiOkW ⟨false⟩ (by decide)⟩

/-- C7 counterexample: with the selfie unset *and* a duplicate registration
present, the call fails with Conflict (409), not with the missing-selfie
error — so the missing-selfie failure is not independent of the other
preconditions; moreover, where the missing-selfie error does fire (no
duplicate), it is an HTTP 400, the same status code the endpoint uses for
its BadRequest errors (e.g. the malformed-envelope error), not a distinct
PreconditionFailed kind. -/
theorem C7_counterexample :
    (register_for_event ⟨1413, "anykey"⟩ userNoSelfieW dbRegW .ok apiOkW ⟨false⟩).response =
      Except.error ⟨409, "User already registered for event 1413"⟩ ∧
    (register_for_event ⟨1413, "anykey"⟩ userNoSelfieW dbRegW .ok apiOkW ⟨false⟩).response ≠
      Except.error ⟨400, "User must have a selfie uploaded before registering for events"⟩ ∧
    (register_for_event ⟨1413, "anykey"⟩ userNoSelfieW dbNoRegW .ok apiOkW ⟨false⟩).response =
      Except.error ⟨400, "User must have a selfie uploaded before registering for events"⟩ ∧
    (register_for_event ⟨1413, "anykey"⟩ userW dbNoRegW .ok
        (ApiCallResult.ok ⟨false, none⟩) ⟨false⟩).response =
      Except.error ⟨400, "FotoOwl API returned error response"⟩ := by
  refine ⟨by decide, by decide, by decide, by decide⟩

/-- C7 (amended): among `register_for_event` calls that pass the
duplicate-registration check, the call fails with the missing-selfie error
if and only if the caller's selfie reference is unset (falsy) at call
time; that error carries HTTP status 400 — the same status code as the
endpoint's BadRequest errors — rather than a distinct kind. -/
theorem C7_selfie_check_iff (rd : EventRegistrationRequest) (u : User)
    (db : Db) (dl : DownloadResult) (api : ApiCallResult) (fs : FileState)
    (h : db.registrations.find? (fun r =>
      r.user_id == u.id && r.fotoowl_event_id == rd.event_id) = none) :
    ((register_for_event rd u db dl api fs).response =
       Except.error ⟨400, "User must have a selfie uploaded before registering for events"⟩
     ↔ strTruthy u.selfie_url = false) := by
  constructor
  · intro hresp
    cases hsel : strTruthy u.selfie_url with
    | false => rfl
    | true =>
      exfalso
      simp only [register_for_event, h, hsel, Bool.not_true, Bool.false_eq_true,
        if_false] at hresp
      rcases hev : db.events.find? (fun e => e.fotoowl_event_id == some rd.event_id) with
        _ | ev
      · rw [hev] at hresp
        simp at hresp
      · rw [hev] at hresp
        cases hkey : strTruthy ev.fotoowl_event_key with
        | false => simp [hkey] at hresp
        | true =>
          simp only [hkey, Bool.not_true, Bool.false_eq_true, if_false] at hresp
          cases dl with
          | error m =>
            simp only [download_image_from_url] at hresp
            have : "Failed to download image: " ++ m ≠
                "User must have a selfie uploaded before registering for events" := by
              apply string_ne_of_head_ne
              have h1 : ("Failed to download image: " ++ m).data.head? = some 'F' := rfl
              rw [h1]; decide
            simp [this] at hresp
          | ok =>
            cases api with
            | error m =>
              simp only [download_image_from_url, call_fotoowl_api] at hresp
              have : "Failed to call FotoOwl API: " ++ m ≠
                  "User must have a selfie uploaded before registering for events" := by
                apply string_ne_of_head_ne
                have h1 : ("Failed to call FotoOwl API: " ++ m).data.head? = some 'F' := rfl
                rw [h1]; decide
              simp [this] at hresp
            | ok resp =>
              simp only [download_image_from_url, call_fotoowl_api] at hresp
              cases hok : resp.ok with
              | false => simp [hok] at hresp
              | true =>
                simp only [hok, Bool.not_true, Bool.false_eq_true, if_false] at hresp
                rcases hids : (!intTruthy (resp.data.getD ⟨none, none, none⟩).request_id ||
                    !strTruthy (resp.data.getD ⟨none, none, none⟩).request_key) with _ | _
                · simp [hids] at hresp
                · simp [hids] at hresp
  · intro hfalse
    simp [register_for_event, h, hfalse]

/-- C7 witness: the amended iff applied at a concrete no-duplicate store,
in both directions (selfie unset fires the 400; selfie set does not). -/
theorem C7_selfie_check_iff_witness :
    (dbNoRegW.registrations.find? (fun r =>
      r.user_id == userNoSelfieW.id &&
      r.fotoowl_event_id == (⟨1413, "anykey"⟩ : EventRegistrationRequest).event_id) = none) ∧
    ((register_for_event ⟨1413, "anykey"⟩ userNoSelfieW dbNoRegW .ok apiOkW ⟨false⟩).response =
       Except.error ⟨400, "User must have a selfie uploaded before registering for events"⟩
     ↔ strTruthy userNoSelfieW.selfie_url = false) :=
  ⟨by decide,
    C7_selfie_check_iff ⟨1413, "anykey"⟩ userNoSelfieW dbNoRegW .ok apiOkW ⟨false⟩ (by decide)⟩

/-- C4: for calls that pass the three preconditions and reach a provider
response: if the envelope's `ok` is not set, or `request_id` or
`request_key` is missing/empty, the call fails and no Registration row is
persisted; otherwise the persisted and returned row holds exactly the
returned `request_id`, `request_key` and optional `redirect_url`. -/
theorem C4_provider_validation_and_persist (rd : EventRegistrationRequest)
    (u : User) (db : Db) (resp : FotoowlRegResponse) (fs : FileState) (ev : Event)
    (h1 : db.registrations.find? (fun r =>
      r.user_id == u.id && r.fotoowl_event_id == rd.event_id) = none)
    (h2 : strTruthy u.selfie_url = true)
    (h3 : db.events.find? (fun e => e.fotoowl_event_id == some rd.event_id) = some ev)
    (h4 : strTruthy ev.fotoowl_event_key = true) :
    ((resp.ok = false ∨
      intTruthy (resp.data.getD ⟨none, none, none⟩).request_id = false ∨
      strTruthy (resp.data.getD ⟨none, none, none⟩).request_key = false) →
       (∃ e, (register_for_event rd u db .ok (.ok resp) fs).response = Except.error e) ∧
       (register_for_event rd u db .ok (.ok resp) fs).db = db) ∧
    ((resp.ok = true ∧
      intTruthy (resp.data.getD ⟨none, none, none⟩).request_id = true ∧
      strTruthy (resp.data.getD ⟨none, none, none⟩).request_key = true) →
       (register_for_event rd u db .ok (.ok resp) fs).response =
         Except.ok ⟨none, rd.event_id,
           (resp.data.getD ⟨none, none, none⟩).request_id.getD 0,
           (resp.data.getD ⟨none, none, none⟩).request_key.getD "",
           u.id, (resp.data.getD ⟨none, none, none⟩).redirect_url⟩ ∧
       (register_for_event rd u db .ok (.ok resp) fs).db.registrations =
         db.registrations ++ [⟨none, rd.event_id,
           (resp.data.getD ⟨none, none, none⟩).request_id.getD 0,
           (resp.data.getD ⟨none, none, none⟩).request_key.getD "",
           u.id, (resp.data.getD ⟨none, none, none⟩).redirect_url⟩]) := by
  constructor
  · intro hbad
    rcases hbad with hok | hid | hkey
    · exact ⟨⟨⟨400, "FotoOwl API returned error response"⟩,
        by simp [register_for_event, h1, h2, h3, h4, download_image_from_url,
          call_fotoowl_api, hok]⟩,
        by simp [register_for_event, h1, h2, h3, h4, download_image_from_url,
          call_fotoowl_api, hok]⟩
    · cases hok : resp.ok with
      | false => exact ⟨⟨⟨400, "FotoOwl API returned error response"⟩,
          by simp [register_for_event, h1, h2, h3, h4, download_image_from_url,
            call_fotoowl_api, hok]⟩,
          by simp [register_for_event, h1, h2, h3, h4, download_image_from_url,
            call_fotoowl_api, hok]⟩
      | true => exact ⟨⟨⟨400,
          "Invalid response from FotoOwl API - missing request_id or request_key"⟩,
          by simp [register_for_event, h1, h2, h3, h4, download_image_from_url,
            call_fotoowl_api, hok, hid]⟩,
          by simp [register_for_event, h1, h2, h3, h4, download_image_from_url,
            call_fotoowl_api, hok, hid]⟩
    · cases hok : resp.ok with
      | false => exact ⟨⟨⟨400, "FotoOwl API returned error response"⟩,
          by simp [register_for_event, h1, h2, h3, h4, download_image_from_url,
            call_fotoowl_api, hok]⟩,
          by simp [register_for_event, h1, h2, h3, h4, download_image_from_url,
            call_fotoowl_api, hok]⟩
      | true => exact ⟨⟨⟨400,
          "Invalid response from FotoOwl API - missing request_id or request_key"⟩,
          by simp [register_for_event, h1, h2, h3, h4, download_image_from_url,
            call_fotoowl_api, hok, hkey]⟩,
          by simp [register_for_event, h1, h2, h3, h4, download_image_from_url,
            call_fotoowl_api, hok, hkey]⟩
  · rintro ⟨hok, hid, hkey⟩
    constructor <;>
      simp [register_for_event, h1, h2, h3, h4, download_image_from_url,
        call_fotoowl_api, hok, hid, hkey]

/-- C4 witness: the spec's scenario — event 1413, selfie set, provider
returns `{ok: true, data: {request_id: 77, request_key: "k1"}}` — creates
and returns a row with exactly those values. -/
theorem C4_provider_validation_and_persist_witness :
    ((⟨true, some ⟨some 77, some "k1", none⟩⟩ : FotoowlRegResponse).ok = true ∧
     intTruthy ((⟨true, some ⟨some 77, some "k1", none⟩⟩ : FotoowlRegResponse).data.getD
       ⟨none, none, none⟩).request_id = true ∧
     strTruthy ((⟨true, some ⟨some 77, some "k1", none⟩⟩ : FotoowlRegResponse).data.getD
       ⟨none, none, none⟩).request_key = true) ∧
    ((register_for_event ⟨1413, "anykey"⟩ userW dbNoRegW .ok apiOkW ⟨false⟩).response =
       Except.ok ⟨none, 1413, 77, "k1", 1, none⟩ ∧
     (register_for_event ⟨1413, "anykey"⟩ userW dbNoRegW .ok apiOkW ⟨false⟩).db.registrations =
       dbNoRegW.registrations ++ [⟨none, 1413, 77, "k1", 1, none⟩]) :=
  ⟨⟨rfl, rfl, by decide⟩,
    (C4_provider_validation_and_persist ⟨1413, "anykey"⟩ userW dbNoRegW
      ⟨true, some ⟨some 77, some "k1", none⟩⟩ ⟨false⟩ eventW
      (by decide) (by decide) (by decide) (by decide)).2 ⟨rfl, rfl, by decide⟩⟩

/-- C10: the request body's `key` field is dead: two calls differing only
in `key` produce identical results (same response, same store, same file
state, same provider submission); and whenever the provider is invoked,
the `key` form field sent to it is the one stored on the Events row. -/
theorem C10_body_key_ignored (rd : EventRegistrationRequest) (u : User)
    (db : Db) (dl : DownloadResult) (api : ApiCallResult) (fs : FileState) :
    (∀ k : String, register_for_event { rd with key := k } u db dl api fs =
       register_for_event rd u db dl api fs) ∧
    (∀ c, (register_for_event rd u db dl api fs).provider_call = some c →
       ∃ ev, db.events.find? (fun e => e.fotoowl_event_id == some rd.event_id) = some ev ∧
         c = (rd.event_id, ev.fotoowl_event_key.getD "")) := by
  constructor
  · intro k
    rfl
  · intro c hc
    rcases hreg : db.registrations.find? (fun r =>
        r.user_id == u.id && r.fotoowl_event_id == rd.event_id) with _ | r
    case some => simp [register_for_event, hreg] at hc
    case none =>
    cases hsel : strTruthy u.selfie_url with
    | false => simp [register_for_event, hreg, hsel] at hc
    | true =>
    rcases hev : db.events.find? (fun e => e.fotoowl_event_id == some rd.event_id) with
      _ | ev
    case none => simp [register_for_event, hreg, hsel, hev] at hc
    case some =>
    refine ⟨ev, hev, ?_⟩
    cases hkey : strTruthy ev.fotoowl_event_key with
    | false => simp [register_for_event, hreg, hsel, hev, hkey] at hc
    | true =>
    cases dl with
    | error m =>
        simp [register_for_event, hreg, hsel, hev, hkey, download_image_from_url] at hc
    | ok =>
    cases api with
    | error m =>
        simp [register_for_event, hreg, hsel, hev, hkey, download_image_from_url,
          call_fotoowl_api] at hc
        exact hc.symm
    | ok resp =>
        cases hok : resp.ok with
        | false =>
            simp [register_for_event, hreg, hsel, hev, hkey, download_image_from_url,
              call_fotoowl_api, hok] at hc
            exact hc.symm
        | true =>
            by_cases hids : (!intTruthy (resp.data.getD ⟨none, none, none⟩).request_id ||
                !strTruthy (resp.data.getD ⟨none, none, none⟩).request_key) = true
            · simp [register_for_event, hreg, hsel, hev, hkey, download_image_from_url,
                call_fotoowl_api, hok, hids] at hc
              exact hc.symm
            · simp [register_for_event, hreg, hsel, hev, hkey, download_image_from_url,
                call_fotoowl_api, hok, hids] at hc
              exact hc.symm

/-- C8: scoped cleanup of the transient selfie file — the `finally` block
of `call_fotoowl_api` leaves no file behind on any of its exit paths
(provider success, provider error response, network/transport error), and
a whole `register_for_event` run starting with no transient file ends with
no transient file, whatever the outcome. -/
theorem C8_temp_file_cleanup :
    (∀ (api : ApiCallResult) (fs : FileState),
       (call_fotoowl_api api fs).2.tempFile = false) ∧
    (∀ (rd : EventRegistrationRequest) (u : User) (db : Db)
       (dl : DownloadResult) (api : ApiCallResult),
       (register_for_event rd u db dl api ⟨false⟩).fs.tempFile = false) := by
  constructor
  · intro api fs
    rfl
  · intro rd u db dl api
    cases dl <;> cases api <;>
      simp only [register_for_event, download_image_from_url, call_fotoowl_api] <;>
      (repeat' split) <;> rfl

/-- A stored mirror of FotoOwl image 10, held under the model's real
column `fotoowl_image_id` (spec scenario). -/
def imgW : Image := ⟨100, "pic10", some 1, some 10, some "http://fotoowl/10.jpg",
  some "http://filecoin/10", none, none, none, none, none, none, some 1413, none, none⟩

/-- Store with the registration, the event and the mirrored image 10. -/
def dbMatchW : Db := ⟨[regW], [eventW], [imgW]⟩

/-- Provider "image list" response with images 10 and 11 (spec scenario:
only image 10 is mirrored locally). -/
def listRespW : FotoowlListResponse :=
  ⟨true, [⟨10, some "n10", some "http://fotoowl/10.jpg", none, none, none⟩,
          ⟨11, some "n11", some "http://fotoowl/11.jpg", none, none, none⟩]⟩

/-- C1: the claimed order-preserving merge never executes.  `models.Image`
declares `fotoowl_image_id`, not `fotoowl_id`, so for every non-empty
provider match list the query construction `Image.fotoowl_id.in_(...)`
(events.py line 344) raises `AttributeError`, the generic
`except Exception` wraps it, and the endpoint returns 500 — both on the
spec's scenario, where a mirror of returned image 10 is stored locally,
and on a store with no image rows at all. -/
theorem C1_matched_images_attribute_error :
    get_event_matched_image_list 1413 0 (-1) userW dbMatchW (.response listRespW) =
      Except.error ⟨500, "Unexpected error: " ++ imageAttributeErrorMsg⟩ ∧
    imgW ∈ dbMatchW.images ∧
    imgW.fotoowl_image_id = some 10 ∧
    listRespW.image_list.map (fun img => img.id) = [10, 11] ∧
    get_event_matched_image_list 1413 0 (-1) userW dbRegW (.response listRespW) =
      Except.error ⟨500, "Unexpected error: " ++ imageAttributeErrorMsg⟩ :=
  ⟨by decide, by decide, by decide, by decide, by decide⟩

/-- C5: concrete evaluation of every specified error path of
`get_event_matched_image_list`.  Missing registration → 404; missing/empty
event key → 400; transport failure → 503; empty provider match list →
empty sequence.  But a non-"ok" envelope does NOT yield BadRequest: the
`HTTPException(400)` raised inside the `try` is caught by the endpoint's
generic `except Exception` (there is no `except HTTPException: raise` arm
here, unlike `register_for_event`) and re-wrapped as a 500 Internal error
— the code's own raise of a 400 shows the intent the spec records. -/
theorem C5_error_paths_concrete :
    get_event_matched_image_list 1413 0 (-1) userW ⟨[], [eventW], []⟩
        (.response ⟨true, []⟩) =
      Except.error ⟨404, "User is not registered for event 1413. Please register first."⟩ ∧
    get_event_matched_image_list 1413 0 (-1) userW
        ⟨[regW], [{ eventW with fotoowl_event_key := some "" }], []⟩
        (.response ⟨true, []⟩) =
      Except.error ⟨400, "Event key not found for event 1413"⟩ ∧
    get_event_matched_image_list 1413 0 (-1) userW dbRegW
        (.requestError "connection refused") =
      Except.error ⟨503, "Failed to connect to FotoOwl API: connection refused"⟩ ∧
    get_event_matched_image_list 1413 0 (-1) userW dbRegW (.response ⟨true, []⟩) =
      Except.ok [] ∧
    get_event_matched_image_list 1413 0 (-1) userW dbRegW (.response ⟨false, []⟩) =
      Except.error ⟨500, "Unexpected error: 400: FotoOwl API returned error response"⟩ :=
  ⟨by decide, by decide, by decide, by decide, by decide⟩

/-! ## Bulk-ingestion lemmas -/

theorem tripletMem_iff {t : Int × Int × Int} {l : List (Int × Int × Int)} :
    tripletMem t l = true ↔ t ∈ l := by
  unfold tripletMem
  rw [List.any_eq_true]
  constructor
  · rintro ⟨x, hx, hxt⟩
    exact (of_decide_eq_true hxt) ▸ hx
  · intro ht
    exact ⟨t, ht, by simp⟩

/-- The fuel argument is irrelevant as soon as it covers the list length. -/
theorem chunksOfFuel_irrel (n : Nat) (fuel1 fuel2 : Nat) (l : List MappingRow)
    (h1 : l.length ≤ fuel1) (h2 : l.length ≤ fuel2) :
    chunksOfFuel n fuel1 l = chunksOfFuel n fuel2 l := by
  induction fuel1 generalizing fuel2 l with
  | zero =>
    cases l with
    | nil => cases fuel2 <;> rfl
    | cons x xs => simp at h1
  | succ f1 ihf =>
    cases l with
    | nil => cases fuel2 <;> rfl
    | cons x xs =>
      cases fuel2 with
      | zero => simp at h2
      | succ f2 =>
        simp only [chunksOfFuel]
        congr 1
        have hx1 : xs.length ≤ f1 := by simpa using h1
        have hx2 : xs.length ≤ f2 := by simpa using h2
        have hd : (xs.drop (n - 1)).length ≤ xs.length := by
          simp [List.length_drop]
        exact ihf f2 (xs.drop (n - 1)) (le_trans hd hx1) (le_trans hd hx2)

theorem chunksOf_nil (n : Nat) : chunksOf n [] = [] := rfl

/-- Unfolding equation of the chunk slicing on a nonempty list. -/
theorem chunksOf_cons (n : Nat) (x : MappingRow) (xs : List MappingRow) :
    chunksOf n (x :: xs) = (x :: xs).take n :: chunksOf n (xs.drop (n - 1)) := by
  show chunksOfFuel n (xs.length + 1) (x :: xs) = _
  simp only [chunksOfFuel]
  congr 1
  exact chunksOfFuel_irrel n xs.length (xs.drop (n - 1)).length (xs.drop (n - 1))
    (by simp [List.length_drop]) (le_refl _)

/-- The chunk slices concatenate back to the whole list. -/
theorem chunksOf_join {n : Nat} (hn : 0 < n) (l : List MappingRow) :
    (chunksOf n l).flatten = l := by
  cases l with
  | nil => simp [chunksOf_nil]
  | cons x xs =>
    have ih := chunksOf_join hn (xs.drop (n - 1))
    rw [chunksOf_cons]
    simp only [List.flatten_cons, ih]
    cases n with
    | zero => omega
    | succ m =>
      simp [List.take_succ_cons, List.take_append_drop]
termination_by l.length
decreasing_by
  simp only [List.length_drop, List.length_cons]
  omega

/-- Every chunk slice is nonempty and holds at most `n` rows. -/
theorem chunksOf_mem_length {n : Nat} (hn : 0 < n) (l : List MappingRow) :
    ∀ c ∈ chunksOf n l, 0 < c.length ∧ c.length ≤ n := by
  cases l with
  | nil => simp [chunksOf_nil]
  | cons x xs =>
    have ih := chunksOf_mem_length hn (xs.drop (n - 1))
    rw [chunksOf_cons]
    intro c hc
    rcases List.mem_cons.mp hc with hc | hc
    · subst hc
      constructor
      · simp [List.length_take]
        omega
      · simp [List.length_take]
    · exact ih c hc
termination_by l.length
decreasing_by
  simp only [List.length_drop, List.length_cons]
  omega

/-- Every chunk slice except possibly the last holds exactly `n` rows. -/
theorem chunksOf_dropLast_length {n : Nat} (hn : 0 < n) (l : List MappingRow) :
    ∀ c ∈ (chunksOf n l).dropLast, c.length = n := by
  cases l with
  | nil => simp [chunksOf_nil]
  | cons x xs =>
    have ih := chunksOf_dropLast_length hn (xs.drop (n - 1))
    rw [chunksOf_cons]
    cases hrest : chunksOf n (xs.drop (n - 1)) with
    | nil => simp
    | cons c2 cs2 =>
      intro c hc
      rw [List.dropLast_cons_of_ne_nil (by simp)] at hc
      rcases List.mem_cons.mp hc with hc | hc
      · subst hc
        have hne : xs.drop (n - 1) ≠ [] := by
          intro hnil
          rw [hnil] at hrest
          simp [chunksOf_nil] at hrest
        have hlen : n - 1 < xs.length := by
          by_contra hcon
          exact hne (List.drop_eq_nil_of_le (by omega))
        simp [List.length_take]
        omega
      · rw [← hrest] at hc
        exact ih c hc
termination_by l.length
decreasing_by
  simp only [List.length_drop, List.length_cons]
  omega

/-- The chunk loop completes without failure iff no chunk index fails. -/
theorem runChunks_fst_eq_none {chunkFail : ChunkOracle}
    (chunks : List (List MappingRow)) (i : Nat) (pending : List MappingRow) :
    (runChunks chunkFail i chunks pending).1 = none ↔
      ∀ j < chunks.length, chunkFail (i + j) = none := by
  induction chunks generalizing i pending with
  | nil => simp [runChunks]
  | cons c cs ih =>
    cases hf : chunkFail i with
    | some msg =>
      simp only [runChunks, hf]
      constructor
      · intro h; exact absurd h (by simp)
      · intro h
        have := h 0 (by simp)
        simp [hf] at this
    | none =>
      simp only [runChunks, hf]
      rw [ih]
      constructor
      · intro h j hj
        cases j with
        | zero => simpa using hf
        | succ j2 =>
          have h2 := h j2 (by simpa using Nat.lt_of_succ_lt_succ hj)
          have he : i + 1 + j2 = i + Nat.succ j2 := by omega
          rw [he] at h2
          exact h2
      · intro h j hj
        have h2 := h (j + 1) (by simpa using Nat.succ_lt_succ hj)
        have he : i + (j + 1) = i + 1 + j := by omega
        rw [he] at h2
        exact h2

/-- When no chunk fails, the pending set accumulates every chunk's rows. -/
theorem runChunks_snd_of_none {chunkFail : ChunkOracle}
    (chunks : List (List MappingRow)) (i : Nat) (pending : List MappingRow)
    (h : (runChunks chunkFail i chunks pending).1 = none) :
    (runChunks chunkFail i chunks pending).2 = pending ++ chunks.flatten := by
  induction chunks generalizing i pending with
  | nil => simp [runChunks]
  | cons c cs ih =>
    cases hf : chunkFail i with
    | some msg => simp [runChunks, hf] at h
    | none =>
      simp only [runChunks, hf] at h ⊢
      rw [ih _ _ h]
      simp

/-- A concrete incoming mapping (request 7, event 1, image 3, index 5). -/
def mW : FotoOwlRequestMappingCreate := ⟨7, 1, 3, 5, none, none, none, none, none⟩

/-- A second mapping with the same composite triplet as `mW` but different
image payload. -/
def mW2 : FotoOwlRequestMappingCreate := ⟨7, 1, 4, 5, none, none, none, none, none⟩

/-- C6: the new rows are written in slices produced by the 500-row chunking
(nonempty, at most 500 rows each, all but the last exactly 500, and
concatenating to the full new-row list); when every chunk succeeds the
call commits exactly once and the table gains exactly the new rows; when
any chunk fails the call errors, commits zero times, and the table is
byte-for-byte unchanged — no rows from any chunk of this call survive. -/
theorem C6_chunked_commit_rollback (mappings : List FotoOwlRequestMappingCreate)
    (committed : List MappingRow) (chunkFail : ChunkOracle) :
    (chunksOf 500 ((newMappings mappings committed).map toRow)).flatten =
      (newMappings mappings committed).map toRow ∧
    (∀ c ∈ chunksOf 500 ((newMappings mappings committed).map toRow),
       0 < c.length ∧ c.length ≤ 500) ∧
    (∀ c ∈ (chunksOf 500 ((newMappings mappings committed).map toRow)).dropLast,
       c.length = 500) ∧
    ((∀ i < (chunksOf 500 ((newMappings mappings committed).map toRow)).length,
        chunkFail i = none) →
      (bulk_insert_fotoowl_request_mappings mappings committed chunkFail).commits = 1 ∧
      (bulk_insert_fotoowl_request_mappings mappings committed chunkFail).committed =
        committed ++ (newMappings mappings committed).map toRow) ∧
    ((∃ i, i < (chunksOf 500 ((newMappings mappings committed).map toRow)).length ∧
        chunkFail i ≠ none) →
      (∃ e, (bulk_insert_fotoowl_request_mappings mappings committed chunkFail).response =
         Except.error e) ∧
      (bulk_insert_fotoowl_request_mappings mappings committed chunkFail).committed =
        committed ∧
      (bulk_insert_fotoowl_request_mappings mappings committed chunkFail).commits = 0) := by
  have h500 : 0 < 500 := by omega
  refine ⟨chunksOf_join h500 _, chunksOf_mem_length h500 _,
    chunksOf_dropLast_length h500 _, ?_, ?_⟩
  · intro hok
    have h1 : (runChunks chunkFail 0
        (chunksOf 500 ((newMappings mappings committed).map toRow)) []).1 = none := by
      rw [runChunks_fst_eq_none]
      intro j hj
      simpa using hok j hj
    have h2 := runChunks_snd_of_none
      (chunksOf 500 ((newMappings mappings committed).map toRow)) 0 [] h1
    have hR : runChunks chunkFail 0
        (chunksOf 500 ((newMappings mappings committed).map toRow)) [] =
        (none, (newMappings mappings committed).map toRow) := by
      rw [Prod.ext_iff]
      refine ⟨h1, ?_⟩
      rw [h2, List.nil_append]
      exact chunksOf_join h500 _
    constructor <;> simp [bulk_insert_fotoowl_request_mappings, hR]
  · rintro ⟨i, hi, hne⟩
    have h1 : (runChunks chunkFail 0
        (chunksOf 500 ((newMappings mappings committed).map toRow)) []).1 ≠ none := by
      intro hnone
      rw [runChunks_fst_eq_none] at hnone
      exact hne (by simpa using hnone i hi)
    rcases hR1 : runChunks chunkFail 0
        (chunksOf 500 ((newMappings mappings committed).map toRow)) [] with ⟨o, pend⟩
    cases o with
    | none => rw [hR1] at h1; simp at h1
    | some msg =>
      refine ⟨⟨⟨500, "Error during bulk insert: " ++ msg⟩, ?_⟩, ?_, ?_⟩ <;>
        simp [bulk_insert_fotoowl_request_mappings, hR1]

/-- C6 witness: the all-chunks-succeed branch applied at a one-mapping
batch against an empty table with a never-failing oracle. -/
theorem C6_chunked_commit_rollback_witness :
    (∀ i < (chunksOf 500 ((newMappings [mW] []).map toRow)).length,
       (fun (_ : Nat) => (none : Option String)) i = none) ∧
    ((bulk_insert_fotoowl_request_mappings [mW] [] (fun _ => none)).commits = 1 ∧
     (bulk_insert_fotoowl_request_mappings [mW] [] (fun _ => none)).committed =
       [] ++ (newMappings [mW] []).map toRow) :=
  ⟨by decide,
    (C6_chunked_commit_rollback [mW] [] (fun _ => none)).2.2.2.1 (by decide)⟩

/-- `List.countP` respects pointwise equal predicates. -/
theorem countP_eq_of_forall {α : Type} {l : List α} {p q : α → Bool}
    (h : ∀ a ∈ l, p a = q a) : l.countP p = l.countP q := by
  induction l with
  | nil => rfl
  | cons a as ih =>
    rw [List.countP_cons, List.countP_cons, h a (by simp),
      ih (fun b hb => h b (List.mem_cons_of_mem a hb))]

/-- C2 counterexample: two batch entries with the same composite triplet
`(1, 5, 7)` against an empty table are BOTH inserted — the response counts
2 inserted, 0 skipped, and the table ends with two rows under that key —
whereas the claim requires exactly one insertion with the other occurrence
counted and recorded as skipped.  The duplicate pre-check consults only
the already-stored triplets, never the current batch. -/
theorem C2_counterexample :
    (bulk_insert_fotoowl_request_mappings [mW, mW2] [] (fun _ => none)).response =
      Except.ok ⟨2, 2, 0, []⟩ ∧
    ((bulk_insert_fotoowl_request_mappings [mW, mW2] [] (fun _ => none)).committed.countP
      (fun r => decide (rowTriplet r = (1, 5, 7)))) = 2 :=
  ⟨by decide, by decide⟩

/-- C2 (amended): in every successful bulk-ingestion response
`total_received = total_inserted + total_skipped` with
`total_received` the batch size; for a composite key already committed by
a prior call, *every* batch occurrence is counted and recorded as skipped
and no row is inserted for it; but duplicate keys occurring only within
the current batch are not deduplicated — each occurrence is inserted. -/
theorem C2_bulk_dedup (mappings : List FotoOwlRequestMappingCreate)
    (committed : List MappingRow) (chunkFail : ChunkOracle)
    (resp : FotoOwlRequestMappingBulkResponse)
    (hok : (bulk_insert_fotoowl_request_mappings mappings committed chunkFail).response =
      Except.ok resp) :
    (resp.total_received = resp.total_inserted + resp.total_skipped ∧
     resp.total_received = mappings.length) ∧
    (∀ t, (∃ r ∈ committed, rowTriplet r = t) →
       resp.skipped_pairs.countP (fun u => decide (u = t)) =
         mappings.countP (fun m => decide (triplet m = t)) ∧
       (bulk_insert_fotoowl_request_mappings mappings committed chunkFail).committed.countP
           (fun r => decide (rowTriplet r = t)) =
         committed.countP (fun r => decide (rowTriplet r = t))) ∧
    (∀ t, (∀ r ∈ committed, rowTriplet r ≠ t) →
       (bulk_insert_fotoowl_request_mappings mappings committed chunkFail).committed.countP
           (fun r => decide (rowTriplet r = t)) =
         committed.countP (fun r => decide (rowTriplet r = t)) +
           mappings.countP (fun m => decide (triplet m = t))) := by
  rcases hR : runChunks chunkFail 0
      (chunksOf 500 ((newMappings mappings committed).map toRow)) [] with ⟨o, pend⟩
  cases o with
  | some msg =>
    simp [bulk_insert_fotoowl_request_mappings, hR] at hok
  | none =>
    have h1 : (runChunks chunkFail 0
        (chunksOf 500 ((newMappings mappings committed).map toRow)) []).1 = none := by
      rw [hR]
    have h2 := runChunks_snd_of_none
      (chunksOf 500 ((newMappings mappings committed).map toRow)) 0 [] h1
    rw [hR] at h2
    simp only [List.nil_append] at h2
    have hpend : pend = (newMappings mappings committed).map toRow := by
      rw [h2]
      exact chunksOf_join (by omega) _
    subst hpend
    have hresp : resp = ⟨mappings.length,
        ((chunksOf 500 ((newMappings mappings committed).map toRow)).map List.length).sum,
        (skippedMappings mappings committed).length,
        (skippedMappings mappings committed).map triplet⟩ := by
      simp [bulk_insert_fotoowl_request_mappings, hR] at hok
      exact hok.symm
    have hcommitted : (bulk_insert_fotoowl_request_mappings mappings committed
        chunkFail).committed = committed ++ (newMappings mappings committed).map toRow := by
      simp [bulk_insert_fotoowl_request_mappings, hR]
    have hsum : ((chunksOf 500 ((newMappings mappings committed).map toRow)).map
        List.length).sum = (newMappings mappings committed).length := by
      rw [← List.length_flatten, chunksOf_join (by omega), List.length_map]
    have hsplit : mappings.length =
        (skippedMappings mappings committed).length +
        (newMappings mappings committed).length := by
      rw [skippedMappings, newMappings]
      exact List.length_eq_length_filter_add _
    refine ⟨?_, ?_, ?_⟩
    · rw [hresp]
      refine ⟨?_, rfl⟩
      simp only []
      rw [hsum]
      omega
    · rintro t ⟨r0, hr0, hrt⟩
      have hpred : ∀ m ∈ mappings, triplet m = t →
          tripletMem (triplet m) (existingTriplets mappings committed) = true := by
        intro m hm hmt
        rw [tripletMem_iff, hmt]
        refine List.mem_filter.mpr ⟨List.mem_map.mpr ⟨r0, hr0, hrt⟩, ?_⟩
        rw [tripletMem_iff, ← hmt]
        exact List.mem_map_of_mem triplet hm
      constructor
      · rw [hresp]
        dsimp only
        rw [List.countP_map, skippedMappings, List.countP_filter]
        apply countP_eq_of_forall
        intro m hm
        by_cases hmt : triplet m = t
        · have hp := hpred m hm hmt
          simp only [Function.comp_apply]
          rw [hp]
          simp
        · simp [Function.comp_apply, hmt]
      · rw [hcommitted, List.countP_append]
        have hz : ((newMappings mappings committed).map toRow).countP
            (fun r => decide (rowTriplet r = t)) = 0 := by
          rw [List.countP_map, newMappings, List.countP_filter]
          apply List.countP_eq_zero.mpr
          intro m hm
          simp only [Function.comp_apply, Bool.and_eq_true, decide_eq_true_eq,
            Bool.not_eq_true', not_and]
          intro hmt
          rw [hpred m hm hmt]
          simp
        rw [hz, Nat.add_zero]
    · intro t hnone
      rw [hcommitted, List.countP_append]
      have hnew : ((newMappings mappings committed).map toRow).countP
          (fun r => decide (rowTriplet r = t)) =
          mappings.countP (fun m => decide (triplet m = t)) := by
        rw [List.countP_map, newMappings, List.countP_filter]
        apply countP_eq_of_forall
        intro m hm
        show (decide (triplet m = t) &&
            !tripletMem (triplet m) (existingTriplets mappings committed)) =
          decide (triplet m = t)
        by_cases hmt : triplet m = t
        · have hpredf : tripletMem (triplet m)
              (existingTriplets mappings committed) = false := by
            rw [Bool.eq_false_iff]
            intro htrue
            have hmem := (List.mem_filter.mp (tripletMem_iff.mp htrue)).1
            obtain ⟨r, hr, hrt⟩ := List.mem_map.mp hmem
            exact hnone r hr (by rw [hrt, hmt])
          rw [hpredf]
          simp
        · simp [hmt]
      rw [hnew]

/-- C2 witness: the amended theorem applied at a batch `[mW, mW2]` (same
triplet twice) against a table already holding that triplet from a prior
call: both occurrences are skipped and recorded, nothing is inserted, and
`2 = 0 + 2`. -/
theorem C2_bulk_dedup_witness :
    ((bulk_insert_fotoowl_request_mappings [mW, mW2] [toRow mW] (fun _ => none)).response =
       Except.ok ⟨2, 0, 2, [(1, 5, 7), (1, 5, 7)]⟩) ∧
    (((2 : Nat) = 0 + 2 ∧ (2 : Nat) = [mW, mW2].length) ∧
     (∀ t, (∃ r ∈ [toRow mW], rowTriplet r = t) →
        [((1 : Int), (5 : Int), (7 : Int)), (1, 5, 7)].countP (fun u => decide (u = t)) =
          [mW, mW2].countP (fun m => decide (triplet m = t)) ∧
        (bulk_insert_fotoowl_request_mappings [mW, mW2] [toRow mW]
            (fun _ => none)).committed.countP (fun r => decide (rowTriplet r = t)) =
          [toRow mW].countP (fun r => decide (rowTriplet r = t))) ∧
     (∀ t, (∀ r ∈ [toRow mW], rowTriplet r ≠ t) →
        (bulk_insert_fotoowl_request_mappings [mW, mW2] [toRow mW]
            (fun _ => none)).committed.countP (fun r => decide (rowTriplet r = t)) =
          [toRow mW].countP (fun r => decide (rowTriplet r = t)) +
            [mW, mW2].countP (fun m => decide (triplet m = t)))) :=
  ⟨by decide,
    C2_bulk_dedup [mW, mW2] [toRow mW] (fun _ => none)
      ⟨2, 0, 2, [(1, 5, 7), (1, 5, 7)]⟩ (by decide)⟩

/-- C9: a failure of the post-commit Instagram fetch-and-save never fails
the profile update — the whole call result (response, committed user row,
commit count) under a fetch failure equals the result under a successful
fetch, the response is success carrying the updated row, and the profile
commit has happened exactly once. -/
theorem C9_insta_fetch_failure_harmless (profile_data : UserProfileUpdate)
    (current_user : User) (msg : String) :
    update_profile profile_data current_user (.failure msg) =
      update_profile profile_data current_user .ok ∧
    (update_profile profile_data current_user (.failure msg)).response =
      Except.ok ((update_profile profile_data current_user (.failure msg)).user) ∧
    (update_profile profile_data current_user (.failure msg)).commits = 1 := by
  refine ⟨?_, ?_, ?_⟩
  · simp only [update_profile]
  · simp only [update_profile]
    split <;> rfl
  · simp only [update_profile]
    split <;> rfl

/-- C10 witness: at the concrete registration scenario the provider is
actually invoked, and the `key` form field it receives is the Events
table's stored key (`"ekey"`), not the request body's `key`. -/
theorem C10_body_key_ignored_witness :
    (register_for_event ⟨1413, "anykey"⟩ userW dbNoRegW .ok apiOkW ⟨false⟩).provider_call =
      some (1413, "ekey") ∧
    (∃ ev, dbNoRegW.events.find? (fun e => e.fotoowl_event_id == some (1413 : Int)) =
        some ev ∧
      ((1413 : Int), "ekey") = ((1413 : Int), ev.fotoowl_event_key.getD "")) :=
  ⟨by decide,
    (C10_body_key_ignored ⟨1413, "anykey"⟩ userW dbNoRegW .ok apiOkW ⟨false⟩).2
      (1413, "ekey") (by decide)⟩

end Echoo
